import Mathlib

/-!
Shallow embedding of `src/AviReader8.cpp`, a VfW-based AVI input plugin
(Open / Close / GetInfo / ReadVideoFrame / ReadAudioRange).

The OS multimedia service (AVIFile* / AVIStream* calls) is opaque: it is
modelled as an oracle record `Service` giving the outcome of every call the
adapter can make, including the success of each `GlobalAlloc`.  Null
pointers are `Option.none`; stream handles are the stream's enumeration
index.  Every adapter operation additionally returns the list of resource
and service events it performed, so that ordering, release and leak
properties can be stated.
-/

namespace AviReader

/-- `streamtypeVIDEO` = FOURCC "vids". -/
def streamtypeVIDEO : Nat := 0x73646976

/-- `streamtypeAUDIO` = FOURCC "auds". -/
def streamtypeAUDIO : Nat := 0x73647561

/-- The fields of `AVISTREAMINFO` that the adapter reads. -/
structure AVISTREAMINFO where
  fccType : Nat
  dwRate : Nat
  dwScale : Nat
  dwLength : Nat
deriving DecidableEq, Repr

/-- The zeroed `AVISTREAMINFO` (after `ZeroMemory` of the session record). -/
def AVISTREAMINFO.zero : AVISTREAMINFO :=
  { fccType := 0, dwRate := 0, dwScale := 0, dwLength := 0 }

/-- The field of `AVIFILEINFO` that the adapter reads. -/
structure AVIFILEINFO where
  dwStreams : Nat
deriving DecidableEq, Repr

/-- The field of `WAVEFORMATEX` that the adapter reads. -/
structure WAVEFORMATEX where
  nBlockAlign : Int
deriving DecidableEq, Repr

/-- Video format blobs are opaque bytes to the adapter. -/
abbrev VideoFmt : Type := List Nat

/-- The session record (`struct FILE_HANDLE` of the source).  Pointers
(`pfile`, `pvideo`, `paudio`, `videoformat`, `audioformat`) are `Option`s,
`none` standing for a null pointer; a stream handle is the stream's index. -/
structure FILE_HANDLE where
  flag : Nat
  pfile : Option Nat
  pvideo : Option Nat
  paudio : Option Nat
  fileinfo : AVIFILEINFO
  videoinfo : AVISTREAMINFO
  audioinfo : AVISTREAMINFO
  videoformat : Option VideoFmt
  videoformatsize : Int
  audioformat : Option WAVEFORMATEX
  audioformatsize : Int
deriving DecidableEq, Repr

def FILE_HANDLE.FLAG_VIDEO : Nat := 1
def FILE_HANDLE.FLAG_AUDIO : Nat := 2

/-- The session record right after `GlobalAlloc` + `ZeroMemory`. -/
def FILE_HANDLE.zero : FILE_HANDLE :=
  { flag := 0, pfile := none, pvideo := none, paudio := none
    fileinfo := { dwStreams := 0 }
    videoinfo := AVISTREAMINFO.zero, audioinfo := AVISTREAMINFO.zero
    videoformat := none, videoformatsize := 0
    audioformat := none, audioformatsize := 0 }

/-- Resource and service events an adapter call can perform, in order. -/
inductive Event where
  | allocSession
  | freeSession
  | acquireFile
  | releaseFile (h : Option Nat)
  | acquireStream (i : Nat)
  | releaseStream (h : Option Nat)
  | allocVideoBlob
  | allocAudioBlob
  | freeVideoBlob
  | freeAudioBlob
  /-- `AVIStreamReadFormat(h, 0, buf, &size)`; `bufNull` records whether the
  destination buffer pointer was null. -/
  | readFormat (h : Option Nat) (bufNull : Bool)
  /-- `AVIStreamRead(h, start, len, buf, cap, plBytes, plSamples)`;
  `bufNull` records whether the destination buffer pointer was null,
  `cap` the byte capacity passed. -/
  | streamRead (h : Option Nat) (start len : Int) (bufNull : Bool) (cap : Int)
deriving DecidableEq, Repr

/-- Oracle for the OS service and the allocator: the outcome of every call
the adapter can make.  Format-blob allocation outcomes are indexed by the
stream index being processed (at most one such allocation per stream). -/
structure Service where
  /-- `GlobalAlloc` of the session record succeeds. -/
  sessionAllocOk : Bool
  /-- `AVIFileOpen` returns `S_OK`. -/
  openOk : Bool
  /-- `AVIFileInfo` returns `S_OK`. -/
  fileInfoOk : Bool
  /-- The `AVIFILEINFO` the service fills in. -/
  fileInfo : AVIFILEINFO
  /-- `AVIFileGetStream` for index `i` returns `S_OK`. -/
  getStreamOk : Nat → Bool
  /-- The `AVISTREAMINFO` the service fills in for stream `i`. -/
  streamInfo : Nat → AVISTREAMINFO
  /-- The size `AVIStreamFormatSize` reports for stream `i`. -/
  formatSize : Nat → Int
  /-- `GlobalAlloc` of the format blob while processing stream `i` succeeds. -/
  blobAllocOk : Nat → Bool
  /-- Bytes `AVIStreamReadFormat` writes for a video stream `i`. -/
  videoFormatData : Nat → VideoFmt
  /-- Bytes `AVIStreamReadFormat` writes for an audio stream `i`. -/
  audioFormatData : Nat → WAVEFORMATEX
  /-- Contents of a freshly `GlobalAlloc`ed (GMEM_FIXED, not zeroed),
  not-yet-populated video blob. -/
  garbageVideo : VideoFmt
  /-- Contents of a freshly allocated, not-yet-populated audio blob. -/
  garbageAudio : WAVEFORMATEX
  /-- `AVIStreamRead h start len buf cap`: `none` on failure, otherwise
  `(plBytes, plSamples)` — the byte count and the sample count the service
  reports as actually written.  Arguments: handle, start, sample count,
  whether the destination buffer is null, byte capacity. -/
  streamRead : Option Nat → Int → Int → Bool → Int → Option (Int × Int)

/-- One iteration of the stream-enumeration loop of `func_open`
(`src/AviReader8.cpp` lines 104–137), processing stream `i`.
Faithful to the source, including:
* no duplicate check — a second same-type stream overwrites the first
  without releasing it;
* the audio branch testing `fp->videoformat` (line 127) instead of the
  audio allocation's own result. -/
def openStep (svc : Service) (i : Nat) (s : FILE_HANDLE × List Event) :
    FILE_HANDLE × List Event :=
  let fp := s.1
  let evs := s.2
  if svc.getStreamOk i then
    -- PAVISTREAM pas acquired; AVIStreamInfo(pas, &asi, ...)
    let evs := evs ++ [Event.acquireStream i]
    let asi := svc.streamInfo i
    if asi.fccType = streamtypeVIDEO then
      -- fp->pvideo = pas; fp->videoinfo = asi;
      -- AVIStreamFormatSize(fp->pvideo, 0, &fp->videoformatsize);
      -- fp->videoformat = GlobalAlloc(GMEM_FIXED, fp->videoformatsize);
      let fp := { fp with
        pvideo := some i, videoinfo := asi
        videoformatsize := svc.formatSize i
        videoformat := if svc.blobAllocOk i then some svc.garbageVideo else none }
      let evs := evs ++ (if svc.blobAllocOk i then [Event.allocVideoBlob] else [])
      if fp.videoformat.isSome then
        -- AVIStreamReadFormat(fp->pvideo, 0, fp->videoformat, &fp->videoformatsize);
        -- fp->flag |= FILE_HANDLE::FLAG_VIDEO;
        let fp := { fp with
          videoformat := fp.videoformat.map (fun _ => svc.videoFormatData i)
          flag := fp.flag ||| FILE_HANDLE.FLAG_VIDEO }
        (fp, evs ++ [Event.readFormat (some i) false])
      else
        -- AVIStreamRelease(pas);
        (fp, evs ++ [Event.releaseStream (some i)])
    else if asi.fccType = streamtypeAUDIO then
      -- fp->paudio = pas; fp->audioinfo = asi;
      -- AVIStreamFormatSize(fp->paudio, 0, &fp->audioformatsize);
      -- fp->audioformat = GlobalAlloc(GMEM_FIXED, fp->audioformatsize);
      let fp := { fp with
        paudio := some i, audioinfo := asi
        audioformatsize := svc.formatSize i
        audioformat := if svc.blobAllocOk i then some svc.garbageAudio else none }
      let evs := evs ++ (if svc.blobAllocOk i then [Event.allocAudioBlob] else [])
      if fp.videoformat.isSome then  -- source line 127: tests videoformat
        -- AVIStreamReadFormat(fp->paudio, 0, fp->audioformat, &fp->audioformatsize);
        -- fp->flag |= FILE_HANDLE::FLAG_AUDIO;
        let fp2 := { fp with
          audioformat := fp.audioformat.map (fun _ => svc.audioFormatData i)
          flag := fp.flag ||| FILE_HANDLE.FLAG_AUDIO }
        (fp2, evs ++ [Event.readFormat (some i) fp.audioformat.isNone])
      else
        -- AVIStreamRelease(pas);
        (fp, evs ++ [Event.releaseStream (some i)])
    else
      -- AVIStreamRelease(pas);
      (fp, evs ++ [Event.releaseStream (some i)])
  else (fp, evs)

/-- `func_open` (`src/AviReader8.cpp` lines 93–141): allocate and zero the
session record, open the file, then enumerate and classify streams. -/
def func_open (svc : Service) : Option FILE_HANDLE × List Event :=
  -- FILE_HANDLE* fp = GlobalAlloc(...); if (fp == NULL) return NULL;
  if svc.sessionAllocOk then
    -- ZeroMemory(fp, sizeof(FILE_HANDLE));
    let fp := FILE_HANDLE.zero
    let evs := [Event.allocSession]
    -- if (AVIFileOpen(&fp->pfile, file, OF_READ, nullptr) != S_OK)
    if svc.openOk then
      let fp := { fp with pfile := some 0 }
      let evs := evs ++ [Event.acquireFile]
      -- if (AVIFileInfo(fp->pfile, &fp->fileinfo, ...) == S_OK)
      if svc.fileInfoOk then
        let fp := { fp with fileinfo := svc.fileInfo }
        let r := (List.range fp.fileinfo.dwStreams).foldl
          (fun s i => openStep svc i s) (fp, evs)
        (some r.1, r.2)
      else (some fp, evs)
    else
      -- GlobalFree(fp); return nullptr;
      (none, evs ++ [Event.freeSession])
  else (none, [])

/-- `func_close` (`src/AviReader8.cpp` lines 146–163). -/
def func_close (ih : Option FILE_HANDLE) : Bool × List Event :=
  match ih with
  | none => (true, [])
  | some fp =>
    let evs : List Event := []
    let evs := evs ++
      (if fp.flag &&& FILE_HANDLE.FLAG_AUDIO ≠ 0 then
        -- AVIStreamRelease(fp->paudio); GlobalFree(fp->audioformat);
        [Event.releaseStream fp.paudio, Event.freeAudioBlob]
      else [])
    let evs := evs ++
      (if fp.flag &&& FILE_HANDLE.FLAG_VIDEO ≠ 0 then
        -- AVIStreamRelease(fp->pvideo); GlobalFree(fp->videoformat);
        [Event.releaseStream fp.pvideo, Event.freeVideoBlob]
      else [])
    -- AVIFileRelease(fp->pfile); GlobalFree(fp);
    (true, evs ++ [Event.releaseFile fp.pfile, Event.freeSession])

/-- The host-visible `INPUT_INFO` record. -/
structure INPUT_INFO where
  flag : Nat
  rate : Nat
  scale : Nat
  n : Nat
  format : Option VideoFmt
  format_size : Int
  audio_n : Nat
  audio_format : Option WAVEFORMATEX
  audio_format_size : Int
deriving DecidableEq, Repr

def INPUT_INFO.FLAG_VIDEO : Nat := 1
def INPUT_INFO.FLAG_AUDIO : Nat := 2

/-- `func_info_get` (`src/AviReader8.cpp` lines 168–189).  Returns the
result, the populated info record, the session after the call, and the
events performed (the source makes no service call here and never assigns
to `fp`, so the session comes back unchanged and the event list is empty). -/
def func_info_get (fp : FILE_HANDLE) (iip : INPUT_INFO) :
    Bool × INPUT_INFO × FILE_HANDLE × List Event :=
  let iip := { iip with flag := 0 }
  let iip :=
    if fp.flag &&& FILE_HANDLE.FLAG_VIDEO ≠ 0 then
      { iip with
        flag := iip.flag ||| INPUT_INFO.FLAG_VIDEO
        rate := fp.videoinfo.dwRate
        scale := fp.videoinfo.dwScale
        n := fp.videoinfo.dwLength
        format := fp.videoformat
        format_size := fp.videoformatsize }
    else iip
  let iip :=
    if fp.flag &&& FILE_HANDLE.FLAG_AUDIO ≠ 0 then
      { iip with
        flag := iip.flag ||| INPUT_INFO.FLAG_AUDIO
        audio_n := fp.audioinfo.dwLength
        audio_format := fp.audioformat
        audio_format_size := fp.audioformatsize }
    else iip
  (true, iip, fp, [])

/-- `func_read_video` (`src/AviReader8.cpp` lines 194–201): first
`AVIStreamRead(fp->pvideo, frame, 1, NULL, NULL, &videosize, NULL)` to query
the frame's byte size, then
`AVIStreamRead(fp->pvideo, frame, 1, buf, videosize, &size, NULL)`;
returns `size` (the byte count), the session after the call, and the calls
made. -/
def func_read_video (svc : Service) (fp : FILE_HANDLE) (frame : Int) :
    Int × FILE_HANDLE × List Event :=
  let evs := [Event.streamRead fp.pvideo frame 1 true 0]
  match svc.streamRead fp.pvideo frame 1 true 0 with
  | none => (0, fp, evs)
  | some r =>
    let videosize := r.1
    let evs := evs ++ [Event.streamRead fp.pvideo frame 1 false videosize]
    match svc.streamRead fp.pvideo frame 1 false videosize with
    | none => (0, fp, evs)
    | some r2 => (r2.1, fp, evs)

/-- Outcome of `func_read_audio`: `crash` models the null-pointer
dereference `((WAVEFORMATEX*)fp->audioformat)->nBlockAlign` when
`fp->audioformat` is null. -/
inductive ReadOutcome where
  | crash
  | ret (n : Int)
deriving DecidableEq, Repr

/-- `func_read_audio` (`src/AviReader8.cpp` lines 206–214):
`samplesize = ((WAVEFORMATEX*)fp->audioformat)->nBlockAlign;`
then `AVIStreamRead(fp->paudio, start, length, buf, samplesize*length,
NULL, &size)`; returns `size` — the seventh argument is `plSamples`, so this
is the sample count the service reports, not a byte count. -/
def func_read_audio (svc : Service) (fp : FILE_HANDLE) (start len : Int) :
    ReadOutcome × FILE_HANDLE × List Event :=
  match fp.audioformat with
  | none => (ReadOutcome.crash, fp, [])
  | some wf =>
    let samplesize := wf.nBlockAlign
    let evs := [Event.streamRead fp.paudio start len false (samplesize * len)]
    match svc.streamRead fp.paudio start len false (samplesize * len) with
    | none => (ReadOutcome.ret 0, fp, evs)
    | some r => (ReadOutcome.ret r.2, fp, evs)

/-! ## Concrete service fixtures -/

/-- The zeroed host info record passed in by a caller. -/
def INPUT_INFO.zero : INPUT_INFO :=
  { flag := 0, rate := 0, scale := 0, n := 0, format := none, format_size := 0
    audio_n := 0, audio_format := none, audio_format_size := 0 }

/-- Base oracle the fixtures refine: every call succeeds, data reads fail. -/
def baseSvc : Service :=
  { sessionAllocOk := true, openOk := true, fileInfoOk := true
    fileInfo := { dwStreams := 0 }
    getStreamOk := fun _ => true
    streamInfo := fun _ => AVISTREAMINFO.zero
    formatSize := fun _ => 0
    blobAllocOk := fun _ => true
    videoFormatData := fun _ => []
    audioFormatData := fun _ => { nBlockAlign := 0 }
    garbageVideo := [9, 9]
    garbageAudio := { nBlockAlign := 7 }
    streamRead := fun _ _ _ _ _ => none }

/-- A file with stream 0 = video (format allocation succeeds) and stream 1 =
audio whose format-blob allocation fails. -/
def svcAudioAllocFail : Service :=
  { baseSvc with
    fileInfo := { dwStreams := 2 }
    streamInfo := fun i =>
      if i = 0 then
        { fccType := streamtypeVIDEO, dwRate := 30, dwScale := 1, dwLength := 10 }
      else
        { fccType := streamtypeAUDIO, dwRate := 0, dwScale := 0, dwLength := 1000 }
    formatSize := fun i => if i = 0 then 40 else 18
    blobAllocOk := fun i => i = 0
    videoFormatData := fun _ => [1, 2, 3]
    audioFormatData := fun _ => { nBlockAlign := 4 } }

/-- A file with two video streams (rates 30 and 60); all allocations
succeed. -/
def svcTwoVideo : Service :=
  { baseSvc with
    fileInfo := { dwStreams := 2 }
    streamInfo := fun i =>
      if i = 0 then
        { fccType := streamtypeVIDEO, dwRate := 30, dwScale := 1, dwLength := 10 }
      else
        { fccType := streamtypeVIDEO, dwRate := 60, dwScale := 1, dwLength := 20 }
    formatSize := fun _ => 40
    videoFormatData := fun i => [i] }

/-- A file with a single audio stream and no video stream; the audio
format-blob allocation succeeds. -/
def svcAudioOnly : Service :=
  { baseSvc with
    fileInfo := { dwStreams := 1 }
    streamInfo := fun _ =>
      { fccType := streamtypeAUDIO, dwRate := 0, dwScale := 0, dwLength := 500 }
    formatSize := fun _ => 18
    audioFormatData := fun _ => { nBlockAlign := 4 } }

/-- An oracle whose stream reads succeed, reporting 400 bytes and 100
samples written. -/
def svcRead400x100 : Service :=
  { baseSvc with streamRead := fun _ _ _ _ _ => some (400, 100) }

/-- An oracle whose size query reports 12 bytes and whose data read writes
the requested capacity. -/
def svcReadSized : Service :=
  { baseSvc with
    streamRead := fun _ _ _ bufNull cap =>
      if bufNull then some (12, 1) else some (cap, 1) }

/-- A session holding only an audio format blob with block alignment 4. -/
def fpAudio4 : FILE_HANDLE :=
  { FILE_HANDLE.zero with
    flag := FILE_HANDLE.FLAG_AUDIO
    paudio := some 0
    audioformat := some { nBlockAlign := 4 }
    audioformatsize := 18 }

/-- An oracle that cannot open the file. -/
def svcOpenFail : Service := { baseSvc with openOk := false }

/-- A session with both capabilities set and distinctive cached metadata. -/
def fpBoth : FILE_HANDLE :=
  { flag := 3, pfile := some 0, pvideo := some 0, paudio := some 1
    fileinfo := { dwStreams := 2 }
    videoinfo := { fccType := streamtypeVIDEO, dwRate := 30, dwScale := 1, dwLength := 10 }
    audioinfo := { fccType := streamtypeAUDIO, dwRate := 0, dwScale := 0, dwLength := 1000 }
    videoformat := some [1, 2, 3], videoformatsize := 40
    audioformat := some { nBlockAlign := 4 }, audioformatsize := 18 }

/-! ## Which stream of each type the enumeration loop ends up keeping -/

/-- Stream `i` is successfully fetched and classified as video. -/
def videoAt (svc : Service) (i : Nat) : Prop :=
  svc.getStreamOk i = true ∧ (svc.streamInfo i).fccType = streamtypeVIDEO

instance (svc : Service) : DecidablePred (videoAt svc) := fun i => by
  unfold videoAt
  infer_instance

/-- Stream `i` is successfully fetched and classified as audio. -/
def audioAt (svc : Service) (i : Nat) : Prop :=
  svc.getStreamOk i = true ∧ (svc.streamInfo i).fccType = streamtypeAUDIO

instance (svc : Service) : DecidablePred (audioAt svc) := fun i => by
  unfold audioAt
  infer_instance

/-- The last index in the list that is a video stream. -/
def lastVideo (svc : Service) : List Nat → Option Nat
  | [] => none
  | i :: rest =>
    match lastVideo svc rest with
    | some j => some j
    | none => if videoAt svc i then some i else none

/-- The last index in the list that is an audio stream. -/
def lastAudio (svc : Service) : List Nat → Option Nat
  | [] => none
  | i :: rest =>
    match lastAudio svc rest with
    | some j => some j
    | none => if audioAt svc i then some i else none

/-! ## Helper lemmas about the enumeration loop -/

lemma openStep_video_of_videoAt (svc : Service) (i : Nat)
    (s : FILE_HANDLE × List Event) (h : videoAt svc i) :
    (openStep svc i s).1.pvideo = some i ∧
    (openStep svc i s).1.videoinfo = svc.streamInfo i ∧
    (openStep svc i s).1.videoformat =
      (if svc.blobAllocOk i = true then some (svc.videoFormatData i) else none) := by
  obtain ⟨h1, h2⟩ := h
  simp only [openStep, h1, h2, if_true]
  split_ifs <;> simp_all

lemma openStep_video_of_not_videoAt (svc : Service) (i : Nat)
    (s : FILE_HANDLE × List Event) (h : ¬ videoAt svc i) :
    (openStep svc i s).1.pvideo = s.1.pvideo ∧
    (openStep svc i s).1.videoinfo = s.1.videoinfo ∧
    (openStep svc i s).1.videoformat = s.1.videoformat := by
  unfold videoAt at h
  push_neg at h
  by_cases hg : svc.getStreamOk i = true
  · have hv := h hg
    simp only [openStep, hg, if_true, hv, if_false]
    split_ifs <;> simp
  · simp [openStep, hg]

lemma openStep_audio_of_audioAt (svc : Service) (i : Nat)
    (s : FILE_HANDLE × List Event) (h : audioAt svc i) :
    (openStep svc i s).1.paudio = some i ∧
    (openStep svc i s).1.audioinfo = svc.streamInfo i := by
  obtain ⟨h1, h2⟩ := h
  simp only [openStep, h1, h2, streamtypeVIDEO, streamtypeAUDIO]
  split_ifs <;> simp_all

lemma openStep_audio_of_not_audioAt (svc : Service) (i : Nat)
    (s : FILE_HANDLE × List Event) (h : ¬ audioAt svc i) :
    (openStep svc i s).1.paudio = s.1.paudio ∧
    (openStep svc i s).1.audioinfo = s.1.audioinfo := by
  unfold audioAt at h
  push_neg at h
  by_cases hg : svc.getStreamOk i = true
  · have ha := h hg
    by_cases hv : (svc.streamInfo i).fccType = streamtypeVIDEO
    · simp only [openStep, hg, hv, if_true]
      split_ifs <;> simp
    · simp [openStep, hg, hv, ha]
  · simp [openStep, hg]

lemma foldl_openStep_video (svc : Service) (l : List Nat)
    (s : FILE_HANDLE × List Event) :
    (l.foldl (fun t k => openStep svc k t) s).1.pvideo =
      (match lastVideo svc l with
       | some j => some j
       | none => s.1.pvideo) ∧
    (l.foldl (fun t k => openStep svc k t) s).1.videoinfo =
      (match lastVideo svc l with
       | some j => svc.streamInfo j
       | none => s.1.videoinfo) ∧
    (l.foldl (fun t k => openStep svc k t) s).1.videoformat =
      (match lastVideo svc l with
       | some j => if svc.blobAllocOk j = true then some (svc.videoFormatData j) else none
       | none => s.1.videoformat) := by
  induction l generalizing s with
  | nil => exact ⟨rfl, rfl, rfl⟩
  | cons x xs ih =>
    rw [List.foldl_cons]
    obtain ⟨ih1, ih2, ih3⟩ := ih (openStep svc x s)
    cases hl : lastVideo svc xs with
    | some j =>
      rw [hl] at ih1 ih2 ih3
      simp only [lastVideo, hl]
      exact ⟨ih1, ih2, ih3⟩
    | none =>
      rw [hl] at ih1 ih2 ih3
      by_cases hx : videoAt svc x
      · obtain ⟨p1, p2, p3⟩ := openStep_video_of_videoAt svc x s hx
        simp only [lastVideo, hl, if_pos hx]
        exact ⟨by rw [ih1, p1], by rw [ih2, p2], by rw [ih3, p3]⟩
      · obtain ⟨p1, p2, p3⟩ := openStep_video_of_not_videoAt svc x s hx
        simp only [lastVideo, hl, if_neg hx]
        exact ⟨by rw [ih1, p1], by rw [ih2, p2], by rw [ih3, p3]⟩

lemma foldl_openStep_audio (svc : Service) (l : List Nat)
    (s : FILE_HANDLE × List Event) :
    (l.foldl (fun t k => openStep svc k t) s).1.paudio =
      (match lastAudio svc l with
       | some j => some j
       | none => s.1.paudio) ∧
    (l.foldl (fun t k => openStep svc k t) s).1.audioinfo =
      (match lastAudio svc l with
       | some j => svc.streamInfo j
       | none => s.1.audioinfo) := by
  induction l generalizing s with
  | nil => exact ⟨rfl, rfl⟩
  | cons x xs ih =>
    rw [List.foldl_cons]
    obtain ⟨ih1, ih2⟩ := ih (openStep svc x s)
    cases hl : lastAudio svc xs with
    | some j =>
      rw [hl] at ih1 ih2
      simp only [lastAudio, hl]
      exact ⟨ih1, ih2⟩
    | none =>
      rw [hl] at ih1 ih2
      by_cases hx : audioAt svc x
      · obtain ⟨p1, p2⟩ := openStep_audio_of_audioAt svc x s hx
        simp only [lastAudio, hl, if_pos hx]
        exact ⟨by rw [ih1, p1], by rw [ih2, p2]⟩
      · obtain ⟨p1, p2⟩ := openStep_audio_of_not_audioAt svc x s hx
        simp only [lastAudio, hl, if_neg hx]
        exact ⟨by rw [ih1, p1], by rw [ih2, p2]⟩

lemma openStep_no_release_of_other (svc : Service) (k : Nat)
    (s : FILE_HANDLE × List Event) (i : Nat) (hik : i ≠ k)
    (h : Event.releaseStream (some i) ∉ s.2) :
    Event.releaseStream (some i) ∉ (openStep svc k s).2 := by
  by_cases hg : svc.getStreamOk k = true
  · by_cases hb : svc.blobAllocOk k = true <;>
      by_cases hv : (svc.streamInfo k).fccType = streamtypeVIDEO <;>
        by_cases ha2 : (svc.streamInfo k).fccType = streamtypeAUDIO <;>
          by_cases hvf : s.1.videoformat.isSome = true <;>
            simp_all [openStep, streamtypeVIDEO, streamtypeAUDIO]
  · simp [openStep, hg, h]

lemma openStep_no_release_of_videoAlloc (svc : Service) (k : Nat)
    (s : FILE_HANDLE × List Event) (i : Nat)
    (hv : videoAt svc i) (ha : svc.blobAllocOk i = true)
    (h : Event.releaseStream (some i) ∉ s.2) :
    Event.releaseStream (some i) ∉ (openStep svc k s).2 := by
  by_cases hk : k = i
  · subst hk
    obtain ⟨h1, h2⟩ := hv
    simp [openStep, h1, h2, ha, h]
  · exact openStep_no_release_of_other svc k s i (fun hc => hk hc.symm) h

lemma foldl_no_release_of_videoAlloc (svc : Service) (l : List Nat)
    (s : FILE_HANDLE × List Event) (i : Nat)
    (hv : videoAt svc i) (ha : svc.blobAllocOk i = true)
    (h : Event.releaseStream (some i) ∉ s.2) :
    Event.releaseStream (some i) ∉ (l.foldl (fun t k => openStep svc k t) s).2 := by
  induction l generalizing s with
  | nil => exact h
  | cons x xs ih =>
    rw [List.foldl_cons]
    exact ih _ (openStep_no_release_of_videoAlloc svc x s i hv ha h)

lemma openStep_events_mem (svc : Service) (k : Nat)
    (s : FILE_HANDLE × List Event) (e : Event) (h : e ∈ s.2) :
    e ∈ (openStep svc k s).2 := by
  simp only [openStep]
  split_ifs <;> simp [h]

lemma foldl_events_mem (svc : Service) (l : List Nat)
    (s : FILE_HANDLE × List Event) (e : Event) (h : e ∈ s.2) :
    e ∈ (l.foldl (fun t k => openStep svc k t) s).2 := by
  induction l generalizing s with
  | nil => exact h
  | cons x xs ih =>
    rw [List.foldl_cons]
    exact ih _ (openStep_events_mem svc x s e h)

lemma openStep_releases_audio_of_no_videoformat (svc : Service) (k : Nat)
    (s : FILE_HANDLE × List Event) (h : audioAt svc k)
    (hvf : s.1.videoformat = none) :
    Event.releaseStream (some k) ∈ (openStep svc k s).2 := by
  obtain ⟨hg, hat⟩ := h
  by_cases hb : svc.blobAllocOk k = true <;>
    simp [openStep, hg, hat, streamtypeVIDEO, streamtypeAUDIO, hvf, hb]

lemma openStep_no_video_invariant (svc : Service) (k : Nat)
    (s : FILE_HANDLE × List Event) (hk : ¬ videoAt svc k)
    (h1 : s.1.videoformat = none)
    (h2 : s.1.flag &&& FILE_HANDLE.FLAG_AUDIO = 0) :
    (openStep svc k s).1.videoformat = none ∧
    (openStep svc k s).1.flag &&& FILE_HANDLE.FLAG_AUDIO = 0 := by
  unfold videoAt at hk
  push_neg at hk
  by_cases hg : svc.getStreamOk k = true
  · have hv := hk hg
    by_cases ha2 : (svc.streamInfo k).fccType = streamtypeAUDIO
    · simp [openStep, hg, ha2, h1, h2, streamtypeVIDEO, streamtypeAUDIO]
    · simp [openStep, hg, hv, ha2, h1, h2]
  · simp [openStep, hg, h1, h2]

lemma foldl_no_video_releases_all_audio (svc : Service) (l : List Nat)
    (s : FILE_HANDLE × List Event) (hnv : ∀ i, ¬ videoAt svc i)
    (h1 : s.1.videoformat = none)
    (h2 : s.1.flag &&& FILE_HANDLE.FLAG_AUDIO = 0) :
    (l.foldl (fun t k => openStep svc k t) s).1.videoformat = none ∧
    (l.foldl (fun t k => openStep svc k t) s).1.flag &&& FILE_HANDLE.FLAG_AUDIO = 0 ∧
    (∀ k, k ∈ l → audioAt svc k →
      Event.releaseStream (some k) ∈ (l.foldl (fun t k => openStep svc k t) s).2) := by
  induction l generalizing s with
  | nil =>
    refine ⟨h1, h2, ?_⟩
    intro k hk
    simp at hk
  | cons x xs ih =>
    rw [List.foldl_cons]
    obtain ⟨j1, j2⟩ := openStep_no_video_invariant svc x s (hnv x) h1 h2
    obtain ⟨i1, i2, i3⟩ := ih (openStep svc x s) j1 j2
    refine ⟨i1, i2, ?_⟩
    intro k hk hak
    rcases List.mem_cons.mp hk with hkx | hkxs
    · subst hkx
      exact foldl_events_mem svc xs _ _
        (openStep_releases_audio_of_no_videoformat svc k s hak h1)
    · exact i3 k hkxs hak

lemma func_info_get_video_fields (fp : FILE_HANDLE) (iip : INPUT_INFO)
    (hv : fp.flag &&& FILE_HANDLE.FLAG_VIDEO ≠ 0) :
    (func_info_get fp iip).2.1.rate = fp.videoinfo.dwRate ∧
    (func_info_get fp iip).2.1.scale = fp.videoinfo.dwScale ∧
    (func_info_get fp iip).2.1.n = fp.videoinfo.dwLength ∧
    (func_info_get fp iip).2.1.format = fp.videoformat ∧
    (func_info_get fp iip).2.1.format_size = fp.videoformatsize := by
  simp only [func_info_get, if_pos hv]
  split_ifs <;> simp

lemma func_info_get_no_audio (fp : FILE_HANDLE) (iip : INPUT_INFO)
    (h : fp.flag &&& FILE_HANDLE.FLAG_AUDIO = 0) :
    (func_info_get fp iip).2.1.flag &&& INPUT_INFO.FLAG_AUDIO = 0 ∧
    (func_info_get fp iip).2.1.audio_n = iip.audio_n ∧
    (func_info_get fp iip).2.1.audio_format = iip.audio_format ∧
    (func_info_get fp iip).2.1.audio_format_size = iip.audio_format_size := by
  have hcond : ¬ fp.flag &&& FILE_HANDLE.FLAG_AUDIO ≠ 0 := by simp [h]
  simp only [func_info_get, if_neg hcond]
  split_ifs <;> simp [INPUT_INFO.FLAG_VIDEO, INPUT_INFO.FLAG_AUDIO]

/-! ## Claim theorems -/

/-- C1: evaluation at the failing input.  On a file whose audio stream's
format-blob allocation fails while a video format blob already exists, the
source's audio branch (line 127 tests `fp->videoformat`, not the audio
allocation's own result) still sets `FLAG_AUDIO`, leaves the audio format
blob null, and never releases the audio stream handle — contradicting the
claim that the audio side mirrors the video side's allocation-failure
procedure. -/
theorem C1_audio_alloc_failure_keyed_on_videoformat :
    svcAudioAllocFail.blobAllocOk 1 = false ∧
    ((func_open svcAudioAllocFail).1.map fun fp =>
      (fp.flag &&& FILE_HANDLE.FLAG_AUDIO, fp.audioformat, fp.paudio)) =
      some (FILE_HANDLE.FLAG_AUDIO, none, some 1) ∧
    Event.releaseStream (some 1) ∉ (func_open svcAudioAllocFail).2 := by
  decide

/-- C2: evaluation at the failing input.  The session invariant "HasAudio
implies a non-null audio format blob" is violated by the code: after opening
a file whose audio format-blob allocation fails while a video stream was
already claimed, `FLAG_AUDIO` is set yet `audioformat` is null. -/
theorem C2_hasaudio_with_null_blob :
    ((func_open svcAudioAllocFail).1.map fun fp =>
      (decide (fp.flag &&& FILE_HANDLE.FLAG_AUDIO ≠ 0), fp.audioformat.isNone)) =
      some (true, true) := by
  decide

/-- C3 counterexample: on a file with two video streams (rates 30 and 60),
`func_open` retains the second stream (`pvideo = some 1`), releases neither
stream handle, and `func_info_get` reports the second stream's rate and
format blob — the claim says the duplicate is released immediately and
never reported. -/
theorem C3_duplicate_video_retained_counterexample :
    (svcTwoVideo.streamInfo 0).fccType = streamtypeVIDEO ∧
    (svcTwoVideo.streamInfo 1).fccType = streamtypeVIDEO ∧
    (svcTwoVideo.streamInfo 0).dwRate = 30 ∧
    ((func_open svcTwoVideo).1.map fun fp =>
      (fp.pvideo, fp.videoinfo.dwRate,
       (func_info_get fp INPUT_INFO.zero).2.1.rate,
       (func_info_get fp INPUT_INFO.zero).2.1.format)) =
      some (some 1, 60, 60, some [1]) ∧
    Event.releaseStream (some 0) ∉ (func_open svcTwoVideo).2 ∧
    Event.releaseStream (some 1) ∉ (func_open svcTwoVideo).2 := by
  decide

/-- C3 amended: `func_open` keeps the LAST encountered stream of each type
in the session: the video handle, metadata and format blob come from the
last video-typed stream, and the audio handle and metadata from the last
audio-typed stream (later same-type streams overwrite earlier ones).  A
video stream whose format allocation succeeded is never released, so an
overwritten earlier video stream's handle is leaked.  When `FLAG_VIDEO` is
set, `func_info_get` reports that last video stream's metadata and the
session's (last-video) format blob.  Audio-stream release is keyed on line
127's test of the video format blob, not on duplicate status: in a file
with no video stream, every audio stream's handle is released even though
its allocation succeeded, `FLAG_AUDIO` is never set, and `func_info_get`
reports no audio data. -/
theorem C3_last_same_type_stream_retained (svc : Service)
    (hs : svc.sessionAllocOk = true) (ho : svc.openOk = true)
    (hf : svc.fileInfoOk = true) :
    ∃ fp, (func_open svc).1 = some fp ∧
      fp.pvideo = (match lastVideo svc (List.range svc.fileInfo.dwStreams) with
                   | some j => some j
                   | none => none) ∧
      (∀ j, lastVideo svc (List.range svc.fileInfo.dwStreams) = some j →
        fp.videoinfo = svc.streamInfo j ∧
        fp.videoformat =
          (if svc.blobAllocOk j = true then some (svc.videoFormatData j) else none)) ∧
      fp.paudio = (match lastAudio svc (List.range svc.fileInfo.dwStreams) with
                   | some j => some j
                   | none => none) ∧
      (∀ j, lastAudio svc (List.range svc.fileInfo.dwStreams) = some j →
        fp.audioinfo = svc.streamInfo j) ∧
      (∀ i, videoAt svc i → svc.blobAllocOk i = true →
        Event.releaseStream (some i) ∉ (func_open svc).2) ∧
      (∀ iip j, lastVideo svc (List.range svc.fileInfo.dwStreams) = some j →
        fp.flag &&& FILE_HANDLE.FLAG_VIDEO ≠ 0 →
        (func_info_get fp iip).2.1.rate = (svc.streamInfo j).dwRate ∧
        (func_info_get fp iip).2.1.scale = (svc.streamInfo j).dwScale ∧
        (func_info_get fp iip).2.1.n = (svc.streamInfo j).dwLength ∧
        (func_info_get fp iip).2.1.format = fp.videoformat) ∧
      ((∀ i, ¬ videoAt svc i) →
        (∀ k, k ∈ List.range svc.fileInfo.dwStreams → audioAt svc k →
          Event.releaseStream (some k) ∈ (func_open svc).2) ∧
        fp.flag &&& FILE_HANDLE.FLAG_AUDIO = 0 ∧
        (∀ iip, (func_info_get fp iip).2.1.flag &&& INPUT_INFO.FLAG_AUDIO = 0 ∧
          (func_info_get fp iip).2.1.audio_n = iip.audio_n ∧
          (func_info_get fp iip).2.1.audio_format = iip.audio_format)) := by
  have hopen : func_open svc =
      (some ((List.range svc.fileInfo.dwStreams).foldl (fun t k => openStep svc k t)
          ({ FILE_HANDLE.zero with pfile := some 0, fileinfo := svc.fileInfo },
           [Event.allocSession, Event.acquireFile])).1,
       ((List.range svc.fileInfo.dwStreams).foldl (fun t k => openStep svc k t)
          ({ FILE_HANDLE.zero with pfile := some 0, fileinfo := svc.fileInfo },
           [Event.allocSession, Event.acquireFile])).2) := by
    simp [func_open, hs, ho, hf]
  obtain ⟨hv1, hv2, hv3⟩ := foldl_openStep_video svc (List.range svc.fileInfo.dwStreams)
      ({ FILE_HANDLE.zero with pfile := some 0, fileinfo := svc.fileInfo },
       [Event.allocSession, Event.acquireFile])
  obtain ⟨ha1, ha2⟩ := foldl_openStep_audio svc (List.range svc.fileInfo.dwStreams)
      ({ FILE_HANDLE.zero with pfile := some 0, fileinfo := svc.fileInfo },
       [Event.allocSession, Event.acquireFile])
  refine ⟨((List.range svc.fileInfo.dwStreams).foldl (fun t k => openStep svc k t)
      ({ FILE_HANDLE.zero with pfile := some 0, fileinfo := svc.fileInfo },
       [Event.allocSession, Event.acquireFile])).1,
    ?_, ?_, ?_, ?_, ?_, ?_, ?_, ?_⟩
  · rw [hopen]
  · rw [hv1]
    cases lastVideo svc (List.range svc.fileInfo.dwStreams) <;> rfl
  · intro j hj
    exact ⟨by rw [hv2, hj], by rw [hv3, hj]⟩
  · rw [ha1]
    cases lastAudio svc (List.range svc.fileInfo.dwStreams) <;> rfl
  · intro j hj
    rw [ha2, hj]
  · intro i hvi hbi
    simp only [hopen]
    exact foldl_no_release_of_videoAlloc svc _ _ i hvi hbi (by simp)
  · intro iip j hj hflag
    obtain ⟨q1, q2, q3, q4, -⟩ := func_info_get_video_fields _ iip hflag
    exact ⟨by rw [q1, hv2, hj], by rw [q2, hv2, hj], by rw [q3, hv2, hj], q4⟩
  · intro hnv
    obtain ⟨-, i2, i3⟩ := foldl_no_video_releases_all_audio svc
      (List.range svc.fileInfo.dwStreams)
      ({ FILE_HANDLE.zero with pfile := some 0, fileinfo := svc.fileInfo },
       [Event.allocSession, Event.acquireFile]) hnv rfl (by simp [FILE_HANDLE.zero])
    refine ⟨?_, i2, ?_⟩
    · intro k hk hak
      simp only [hopen]
      exact i3 k hk hak
    · intro iip
      obtain ⟨r1, r2, r3, -⟩ := func_info_get_no_audio _ iip i2
      exact ⟨r1, r2, r3⟩

/-- C3 witness: on the two-video-stream fixture, the retained video stream
is the last one, stream index 1. -/
theorem C3_last_same_type_stream_retained_witness :
    ((func_open svcTwoVideo).1.map FILE_HANDLE.pvideo) = some (some 1) := by
  obtain ⟨fp, hfp, hpv, -⟩ :=
    C3_last_same_type_stream_retained svcTwoVideo rfl rfl rfl
  rw [hfp, Option.map_some', hpv]
  decide

/-- C7: `func_close` on a non-null session performs exactly, in order: the
audio stream release and audio blob free (only when `FLAG_AUDIO` is set),
then the video stream release and video blob free (only when `FLAG_VIDEO`
is set), then the file handle release, then the session free — and returns
true. -/
theorem C7_close_release_order (fp : FILE_HANDLE) :
    func_close (some fp) =
      (true,
        (if fp.flag &&& FILE_HANDLE.FLAG_AUDIO ≠ 0 then
          [Event.releaseStream fp.paudio, Event.freeAudioBlob] else []) ++
        (if fp.flag &&& FILE_HANDLE.FLAG_VIDEO ≠ 0 then
          [Event.releaseStream fp.pvideo, Event.freeVideoBlob] else []) ++
        [Event.releaseFile fp.pfile, Event.freeSession]) := rfl

/-- C8: `func_close` returns true on every input, and on a null handle it
performs no releases at all. -/
theorem C8_close_always_true_null_noop :
    (∀ ih : Option FILE_HANDLE, (func_close ih).1 = true) ∧
    func_close (none : Option FILE_HANDLE) = (true, []) := by
  constructor
  · intro ih
    cases ih <;> rfl
  · rfl

/-- C4: `func_read_video` follows the two-phase protocol: first a size
query with a null destination buffer and zero capacity (returning 0 if it
fails, which covers out-of-range frame indices), then a read into the
caller's buffer whose capacity is exactly the queried byte size (returning
0 if it fails, and otherwise the byte count the service reports as
written); the event trace records both calls with those arguments. -/
theorem C4_read_video_two_phase (svc : Service) (fp : FILE_HANDLE) (frame : Int) :
    (svc.streamRead fp.pvideo frame 1 true 0 = none →
      func_read_video svc fp frame =
        (0, fp, [Event.streamRead fp.pvideo frame 1 true 0])) ∧
    (∀ sz ns, svc.streamRead fp.pvideo frame 1 true 0 = some (sz, ns) →
      (svc.streamRead fp.pvideo frame 1 false sz = none →
        func_read_video svc fp frame =
          (0, fp, [Event.streamRead fp.pvideo frame 1 true 0,
                   Event.streamRead fp.pvideo frame 1 false sz])) ∧
      (∀ b s2, svc.streamRead fp.pvideo frame 1 false sz = some (b, s2) →
        func_read_video svc fp frame =
          (b, fp, [Event.streamRead fp.pvideo frame 1 true 0,
                   Event.streamRead fp.pvideo frame 1 false sz]))) := by
  refine ⟨fun h1 => ?_, fun sz ns h1 => ⟨fun h2 => ?_, fun b s2 h2 => ?_⟩⟩
  · simp [func_read_video, h1]
  · simp [func_read_video, h1, h2]
  · simp [func_read_video, h1, h2]

/-- C4 witness: on an oracle reporting a 12-byte frame and writing the full
capacity, `func_read_video` returns 12 with the two recorded calls. -/
theorem C4_read_video_two_phase_witness :
    func_read_video svcReadSized FILE_HANDLE.zero 0 =
      (12, FILE_HANDLE.zero,
        [Event.streamRead none 0 1 true 0, Event.streamRead none 0 1 false 12]) :=
  ((C4_read_video_two_phase svcReadSized FILE_HANDLE.zero 0).2 12 1 rfl).2 12 1 rfl

/-- C5 counterexample: `func_read_audio` returns the sample count the
service reports (`plSamples`, the seventh `AVIStreamRead` argument), not
the byte count: on an oracle reporting 400 bytes and 100 samples written,
it returns 100, not 400. -/
theorem C5_returns_sample_count_not_bytes :
    svcRead400x100.streamRead (some 0) 0 100 false 400 = some (400, 100) ∧
    (func_read_audio svcRead400x100 fpAudio4 0 100).1 = ReadOutcome.ret 100 ∧
    ReadOutcome.ret (100 : Int) ≠ ReadOutcome.ret 400 := by
  refine ⟨rfl, ?_, by decide⟩
  rfl

/-- C5 amended: `func_read_audio` passes `nBlockAlign * length` as the byte
capacity of the service's sample-read call and returns the sample count the
service reports as written, or 0 when the call fails. -/
theorem C5_capacity_and_sample_count (svc : Service) (fp : FILE_HANDLE)
    (start len : Int) (wf : WAVEFORMATEX) (h : fp.audioformat = some wf) :
    (svc.streamRead fp.paudio start len false (wf.nBlockAlign * len) = none →
      func_read_audio svc fp start len =
        (ReadOutcome.ret 0, fp,
         [Event.streamRead fp.paudio start len false (wf.nBlockAlign * len)])) ∧
    (∀ b s, svc.streamRead fp.paudio start len false (wf.nBlockAlign * len) = some (b, s) →
      func_read_audio svc fp start len =
        (ReadOutcome.ret s, fp,
         [Event.streamRead fp.paudio start len false (wf.nBlockAlign * len)])) := by
  refine ⟨fun hr => ?_, fun b s hr => ?_⟩ <;>
    simp [func_read_audio, h, hr]

/-- C5 witness: with block alignment 4 and a 100-sample request, the
capacity passed is 400 and the service-reported sample count 100 is
returned. -/
theorem C5_capacity_and_sample_count_witness :
    func_read_audio svcRead400x100 fpAudio4 0 100 =
      (ReadOutcome.ret 100, fpAudio4, [Event.streamRead (some 0) 0 100 false 400]) :=
  (C5_capacity_and_sample_count svcRead400x100 fpAudio4 0 100
    { nBlockAlign := 4 } rfl).2 400 100 rfl

/-- C6: when `func_open` fails — the session record cannot be allocated or
the service cannot open the path — it returns null, the session record (if
it was allocated) is freed, and no file or stream handle was acquired, so
nothing leaks. -/
theorem C6_open_failure_clean (svc : Service)
    (h : svc.sessionAllocOk = false ∨ svc.openOk = false) :
    (func_open svc).1 = none ∧
    (func_open svc).2 =
      (if svc.sessionAllocOk then [Event.allocSession, Event.freeSession] else []) ∧
    Event.acquireFile ∉ (func_open svc).2 ∧
    (∀ i, Event.acquireStream i ∉ (func_open svc).2) := by
  rcases h with h | h
  · simp [func_open, h]
  · cases hs : svc.sessionAllocOk <;> simp [func_open, h, hs]

/-- C6 witness: opening through a service that cannot open the file yields
a null session and a trace that allocates and frees the session record
only. -/
theorem C6_open_failure_clean_witness :
    (func_open svcOpenFail).1 = none ∧
    (func_open svcOpenFail).2 =
      (if svcOpenFail.sessionAllocOk then [Event.allocSession, Event.freeSession] else []) ∧
    Event.acquireFile ∉ (func_open svcOpenFail).2 ∧
    (∀ i, Event.acquireStream i ∉ (func_open svcOpenFail).2) :=
  C6_open_failure_clean svcOpenFail (Or.inr rfl)

/-- C9: after `func_open` returns, the session is never mutated:
`func_info_get`, `func_read_video` and `func_read_audio` all return the
session unchanged; `func_info_get` performs no service call (its event list
is empty), returns true, and only copies cached session fields into the
caller's info record. -/
theorem C9_session_immutable_after_open (svc : Service) (fp : FILE_HANDLE)
    (iip : INPUT_INFO) (frame start len : Int) :
    (func_info_get fp iip).1 = true ∧
    (func_info_get fp iip).2.2.1 = fp ∧
    (func_info_get fp iip).2.2.2 = [] ∧
    (func_read_video svc fp frame).2.1 = fp ∧
    (func_read_audio svc fp start len).2.1 = fp ∧
    (fp.flag &&& FILE_HANDLE.FLAG_VIDEO ≠ 0 →
      ((func_info_get fp iip).2.1.rate = fp.videoinfo.dwRate ∧
       (func_info_get fp iip).2.1.scale = fp.videoinfo.dwScale ∧
       (func_info_get fp iip).2.1.n = fp.videoinfo.dwLength ∧
       (func_info_get fp iip).2.1.format = fp.videoformat ∧
       (func_info_get fp iip).2.1.format_size = fp.videoformatsize)) ∧
    (fp.flag &&& FILE_HANDLE.FLAG_AUDIO ≠ 0 →
      ((func_info_get fp iip).2.1.audio_n = fp.audioinfo.dwLength ∧
       (func_info_get fp iip).2.1.audio_format = fp.audioformat ∧
       (func_info_get fp iip).2.1.audio_format_size = fp.audioformatsize)) := by
  refine ⟨rfl, rfl, rfl, ?_, ?_, fun hv => ?_, fun ha => ?_⟩
  · rcases h1 : svc.streamRead fp.pvideo frame 1 true 0 with _ | ⟨b1, s1⟩
    · simp [func_read_video, h1]
    · rcases h2 : svc.streamRead fp.pvideo frame 1 false b1 with _ | ⟨b2, s2⟩ <;>
        simp [func_read_video, h1, h2]
  · rcases hf : fp.audioformat with _ | wf
    · simp [func_read_audio, hf]
    · rcases h1 : svc.streamRead fp.paudio start len false (wf.nBlockAlign * len) with
        _ | ⟨b1, s1⟩ <;> simp [func_read_audio, hf, h1]
  · simp only [func_info_get, if_pos hv]
    split_ifs <;> simp
  · simp only [func_info_get, if_pos ha]
    exact ⟨trivial, trivial, trivial⟩

/-- C9 witness: on a session with both capability flags set, `func_info_get`
reports the cached video rate and audio sample count. -/
theorem C9_session_immutable_after_open_witness :
    (func_info_get fpBoth INPUT_INFO.zero).2.1.rate = fpBoth.videoinfo.dwRate ∧
    (func_info_get fpBoth INPUT_INFO.zero).2.1.audio_n = fpBoth.audioinfo.dwLength := by
  obtain ⟨-, -, -, -, -, hv, ha⟩ :=
    C9_session_immutable_after_open baseSvc fpBoth INPUT_INFO.zero 0 0 0
  exact ⟨(hv (by decide)).1, (ha (by decide)).1⟩

/-- C10 counterexample: an unset `FLAG_AUDIO` does not imply the audio
format blob is null.  Opening a file with a single audio stream and no
video stream takes the buggy else branch (line 127 tests `videoformat`):
the stream handle is released and `FLAG_AUDIO` stays unset, yet the audio
blob was allocated (and never freed), so `func_read_audio` on that session
does not hit the null dereference the claim asserts. -/
theorem C10_flag_unset_blob_nonnull_counterexample :
    ((func_open svcAudioOnly).1.map fun fp =>
      (fp.flag &&& FILE_HANDLE.FLAG_AUDIO, fp.audioformat.isSome,
       (func_read_audio svcAudioOnly fp 0 10).1)) =
      some (0, true, ReadOutcome.ret 0) ∧
    ReadOutcome.ret 0 ≠ ReadOutcome.crash := by
  decide

/-- C10 amended: the read paths perform no capability-flag or handle
validation — their results and service calls are independent of the
session's flag field; `func_read_video` passes the session's video handle
(null or not) to the service unchecked; `func_read_audio` unconditionally
dereferences the audio format blob pointer, crashing exactly when that
pointer is null. -/
theorem C10_reads_no_validation (svc : Service) (fp : FILE_HANDLE)
    (frame start len : Int) :
    (∀ g, (func_read_video svc { fp with flag := g } frame).1 =
            (func_read_video svc fp frame).1 ∧
          (func_read_video svc { fp with flag := g } frame).2.2 =
            (func_read_video svc fp frame).2.2) ∧
    (∀ g, (func_read_audio svc { fp with flag := g } start len).1 =
            (func_read_audio svc fp start len).1 ∧
          (func_read_audio svc { fp with flag := g } start len).2.2 =
            (func_read_audio svc fp start len).2.2) ∧
    (func_read_video svc fp frame).2.2.head? =
      some (Event.streamRead fp.pvideo frame 1 true 0) ∧
    (fp.audioformat = none →
      (func_read_audio svc fp start len).1 = ReadOutcome.crash) ∧
    (∀ wf, fp.audioformat = some wf →
      (func_read_audio svc fp start len).1 ≠ ReadOutcome.crash) := by
  refine ⟨fun g => ?_, fun g => ?_, ?_, fun h => ?_, fun wf h => ?_⟩
  · rcases h1 : svc.streamRead fp.pvideo frame 1 true 0 with _ | ⟨b1, s1⟩
    · simp [func_read_video, h1]
    · rcases h2 : svc.streamRead fp.pvideo frame 1 false b1 with _ | ⟨b2, s2⟩ <;>
        simp [func_read_video, h1, h2]
  · rcases hf : fp.audioformat with _ | wf
    · simp [func_read_audio, hf]
    · rcases h1 : svc.streamRead fp.paudio start len false (wf.nBlockAlign * len) with
        _ | ⟨b1, s1⟩ <;> simp [func_read_audio, hf, h1]
  · rcases h1 : svc.streamRead fp.pvideo frame 1 true 0 with _ | ⟨b1, s1⟩
    · simp [func_read_video, h1]
    · rcases h2 : svc.streamRead fp.pvideo frame 1 false b1 with _ | ⟨b2, s2⟩ <;>
        simp [func_read_video, h1, h2]
  · simp [func_read_audio, h]
  · rcases h1 : svc.streamRead fp.paudio start len false (wf.nBlockAlign * len) with
      _ | ⟨b1, s1⟩ <;> simp [func_read_audio, h, h1]

/-- C10 witness: on the all-zero session (null audio format blob),
`func_read_audio` hits the null dereference. -/
theorem C10_reads_no_validation_witness :
    (func_read_audio baseSvc FILE_HANDLE.zero 0 0).1 = ReadOutcome.crash := by
  obtain ⟨-, -, -, hc, -⟩ := C10_reads_no_validation baseSvc FILE_HANDLE.zero 0 0 0
  exact hc rfl

end AviReader
